import Mathlib

/-!
A shallow embedding of the KYC Expiry Dashboard core (src/app.py and
src/scripts/extract_from_html.py), together with theorems that settle the
spec claims against it.

Conventions of the embedding:
* pandas missing values (NaN / NaT / None) are modelled with `Option`;
* `pd.Categorical(col, categories := ORDER)` is modelled as a membership
  lookup returning `Option` (values outside the category list become `none`,
  exactly as pandas turns them into NaN);
* numeric columns are modelled over `Rat` (pandas floats are modelled as
  exact rationals; float rounding plays no role in any claim);
* `pd.to_datetime(col, errors := coerce)` is modelled for ISO `YYYY-MM-DD`
  inputs only (the only date shape the snapshot schema prescribes); any
  other string is `none`, as coercion yields NaT;
* the filesystem is passed explicitly: the loader receives the parse state
  of the snapshot file, the extractor receives and returns the content of
  the target file.
-/

/-- Fixed bucket order, from `BUCKET_ORDER` in src/app.py. -/
inductive Bucket where
  | expired
  | d0_30
  | d31_60
  | d61_90
  | d90plus
deriving DecidableEq, Repr

/-- Fixed risk order, from `RISK_ORDER` in src/app.py. -/
inductive Risk where
  | High
  | Medium
  | Low
  | Unknown
deriving DecidableEq, Repr

def BUCKET_ORDER : List Bucket :=
  [Bucket.expired, Bucket.d0_30, Bucket.d31_60, Bucket.d61_90, Bucket.d90plus]

def RISK_ORDER : List Risk := [Risk.High, Risk.Medium, Risk.Low, Risk.Unknown]

def bucketStr : Bucket → String
  | Bucket.expired => "Expired"
  | Bucket.d0_30 => "0-30 days"
  | Bucket.d31_60 => "31-60 days"
  | Bucket.d61_90 => "61-90 days"
  | Bucket.d90plus => "90+ days"

def riskStr : Risk → String
  | Risk.High => "High"
  | Risk.Medium => "Medium"
  | Risk.Low => "Low"
  | Risk.Unknown => "Unknown"

/-- Membership in the fixed bucket categories: `pd.Categorical` keeps a value
that is one of the categories and turns anything else into NaN (`none`). -/
def toBucket (s : String) : Option Bucket :=
  if s = "Expired" then some Bucket.expired
  else if s = "0-30 days" then some Bucket.d0_30
  else if s = "31-60 days" then some Bucket.d31_60
  else if s = "61-90 days" then some Bucket.d61_90
  else if s = "90+ days" then some Bucket.d90plus
  else none

/-- Membership in the fixed risk categories, as `pd.Categorical` applies it. -/
def toRisk (s : String) : Option Risk :=
  if s = "High" then some Risk.High
  else if s = "Medium" then some Risk.Medium
  else if s = "Low" then some Risk.Low
  else if s = "Unknown" then some Risk.Unknown
  else none

/-- Raw `days_to_expiry` value as it appears in the snapshot JSON: a number,
null, or a string (the schema says number-or-null, but the loader also
tolerates strings such as "N/A" by coercing them). -/
inductive RawDays where
  | dnull
  | dint (n : Int)
  | dstr (s : String)
deriving DecidableEq, Repr

/-- One entry of the snapshot's `records` list, with the fields of the
canonical snapshot schema.  `Option` marks JSON null / absent. -/
structure RawRecord where
  customer_id : String
  customer_name : String
  risk_rating : Option String
  kyc_document_type : String
  doc_expiry_date : Option String
  days_to_expiry : RawDays
  expiry_bucket : Option String
  relationship_manager : Option String
deriving DecidableEq, Repr

/-- The parsed snapshot file: top-level keys of the canonical JSON. -/
structure RawSnapshot where
  generated_at : Option String
  input_file : Option String
  tabs : Option (List String)
  records : Option (List RawRecord)
deriving DecidableEq, Repr

/-- State of the snapshot file as the loader observes it: absent, present
with content that is not valid JSON, or present with a parsed document. -/
inductive FileState where
  | missing
  | invalid
  | valid (raw : RawSnapshot)
deriving DecidableEq, Repr

def isDigitC (c : Char) : Bool := c.isDigit

def digitsToNat (ds : List Char) : Nat :=
  ds.foldl (fun a c => a * 10 + (c.toNat - 48)) 0

/-- Numeric-string coercion as `pd.to_numeric(errors := coerce)` performs it on
strings: optional surrounding whitespace, optional sign, then a float literal
(integer part and/or fraction, optional exponent).  Anything else coerces to
NaN (`none`).  Values are kept as exact rationals. -/
def parseNumStr (s : String) : Option Rat :=
  let cs := ((s.data.dropWhile Char.isWhitespace).reverse.dropWhile Char.isWhitespace).reverse
  let sgn : Bool × List Char :=
    match cs with
    | c :: rest =>
      if c = '-' then (true, rest) else if c = '+' then (false, rest) else (false, c :: rest)
    | [] => (false, [])
  let intd := sgn.2.takeWhile isDigitC
  let afterInt := sgn.2.dropWhile isDigitC
  let fracSplit : List Char × List Char :=
    match afterInt with
    | c :: rest =>
      if c = '.' then (rest.takeWhile isDigitC, rest.dropWhile isDigitC)
      else ([], c :: rest)
    | [] => ([], [])
  let frac := fracSplit.1
  if intd.isEmpty ∧ frac.isEmpty then none
  else
    let mant : Int := (digitsToNat (intd ++ frac) : Int)
    let num : Int := if sgn.1 then -mant else mant
    let den : Nat := 10 ^ frac.length
    match fracSplit.2 with
    | [] => some (mkRat num den)
    | e :: rest =>
      if e = 'e' ∨ e = 'E' then
        let esgn : Bool × List Char :=
          match rest with
          | c :: r2 => if c = '-' then (false, r2) else if c = '+' then (true, r2) else (true, c :: r2)
          | [] => (true, [])
        let ed := esgn.2.takeWhile isDigitC
        let afterE := esgn.2.dropWhile isDigitC
        if ed.isEmpty ∨ ¬ afterE.isEmpty then none
        else if esgn.1 then some (mkRat (num * (10 : Int) ^ digitsToNat ed) den)
        else some (mkRat num (den * 10 ^ digitsToNat ed))
      else none

/-- Column-level `pd.to_numeric(errors := coerce)`: numbers pass through,
null is NaN, strings are coerced (non-numeric text becomes NaN). -/
def to_numeric : RawDays → Option Rat
  | RawDays.dnull => none
  | RawDays.dint n => some (mkRat n 1)
  | RawDays.dstr s => parseNumStr s

/-- Date coercion `pd.to_datetime(errors := coerce)`, modelled for the ISO
`YYYY-MM-DD` strings the snapshot schema prescribes; anything else is NaT. -/
def parseDateIso (s : String) : Option String :=
  match s.data with
  | [y1, y2, y3, y4, h1, m1, m2, h2, d1, d2] =>
    if isDigitC y1 ∧ isDigitC y2 ∧ isDigitC y3 ∧ isDigitC y4 ∧ h1 = '-' ∧
        isDigitC m1 ∧ isDigitC m2 ∧ h2 = '-' ∧ isDigitC d1 ∧ isDigitC d2 then
      some s
    else none
  | _ => none

/-- A normalized record as it leaves `load_data`: risk and bucket are
categorical (`none` is pandas NaN), days is a coerced number, the date is a
coerced date.  `relationship_manager` is passed through untouched (the code
applies no fillna to it). -/
structure KycRecord where
  customer_id : String
  customer_name : String
  risk_rating : Option Risk
  kyc_document_type : String
  doc_expiry_date : Option String
  days_to_expiry : Option Rat
  expiry_bucket : Option Bucket
  relationship_manager : Option String
deriving DecidableEq, Repr

/-- Per-record normalization performed by the column operations in
`load_data` (src/app.py lines 59-63): fillna("Unknown") on risk then
categorical coercion; categorical coercion of the bucket; numeric coercion of
days; date coercion of the expiry date. -/
def normalizeRecord (r : RawRecord) : KycRecord :=
  { customer_id := r.customer_id
    customer_name := r.customer_name
    risk_rating := toRisk (r.risk_rating.getD "Unknown")
    kyc_document_type := r.kyc_document_type
    doc_expiry_date := r.doc_expiry_date.bind parseDateIso
    days_to_expiry := to_numeric r.days_to_expiry
    expiry_bucket := r.expiry_bucket.bind toBucket
    relationship_manager := r.relationship_manager }

/-- The loader's failure mode: the snapshot file exists but its content is
not valid JSON (in the code, the uncaught `json.JSONDecodeError` escaping
`load_data`). -/
inductive LoaderError where
  | MalformedSnapshot
deriving DecidableEq, Repr

/-- Result of a load: the raw parsed document (for the captions; `none`
models the `{}` returned for a missing file) plus the normalized records. -/
structure Snapshot where
  raw : Option RawSnapshot
  records : List KycRecord
deriving DecidableEq, Repr

/-- `load_data` (src/app.py lines 51-64): missing path gives an empty
snapshot; unparseable content fails; a document without a `records` list (or
with an empty one) gives an empty snapshot; otherwise every record is
normalized, none dropped. -/
def load_data : FileState → Except LoaderError Snapshot
  | FileState.missing => Except.ok { raw := none, records := [] }
  | FileState.invalid => Except.error LoaderError.MalformedSnapshot
  | FileState.valid raw =>
    Except.ok { raw := some raw, records := (raw.records.getD []).map normalizeRecord }

/-- Does the character list `hay` start with `need`? -/
def leadsWith : List Char → List Char → Bool
  | _, [] => true
  | [], _ :: _ => false
  | h :: hs, n :: ns => h = n && leadsWith hs ns

/-- Substring containment on character lists, the semantics of Python's
`needle in hay`. -/
def containsSub : List Char → List Char → Bool
  | [], needle => needle.isEmpty
  | h :: t, needle => leadsWith (h :: t) needle || containsSub t needle

/-- Python `str()` of a float cell: NaN prints as "nan"; a whole number
prints with a trailing ".0"; otherwise the decimal expansion is printed
(value-level model of numpy float repr; exact float shortest-repr for
non-decimal fractions is not replicated, no claim depends on it). -/
def fracDigitChars : Nat → Nat → Nat → List Char
  | 0, _, _ => []
  | _ + 1, 0, _ => []
  | f + 1, rem, d => (Char.ofNat (48 + rem * 10 / d)) :: fracDigitChars f (rem * 10 % d) d

def pyFloatStr (q : Rat) : String :=
  let n := q.num.natAbs
  let d := q.den
  let sign := if q.num < 0 then "-" else ""
  let ip := n / d
  let ds := fracDigitChars 30 (n % d) d
  sign ++ toString ip ++ "." ++ (if ds.isEmpty then "0" else String.mk ds)

def daysCellStr : Option Rat → String
  | none => "nan"
  | some q => pyFloatStr q

def riskCellStr : Option Risk → String
  | none => "nan"
  | some r => riskStr r

def bucketCellStr : Option Bucket → String
  | none => "nan"
  | some b => bucketStr b

def dateCellStr : Option String → String
  | none => "NaT"
  | some s => s ++ " 00:00:00"

def rmCellStr : Option String → String
  | none => "nan"
  | some s => s

/-- The textual form of every field of a row, in DataFrame column order: the
`str(v) for v in row.values` sequence used by the search filter. -/
def fieldStrings (r : KycRecord) : List String :=
  [r.customer_id, r.customer_name, riskCellStr r.risk_rating, r.kyc_document_type,
    dateCellStr r.doc_expiry_date, daysCellStr r.days_to_expiry,
    bucketCellStr r.expiry_bucket, rmCellStr r.relationship_manager]

/-- `any(q in str(v).lower() for v in row.values)` with `ql` already
lower-cased. -/
def rowMatches (ql : String) (r : KycRecord) : Bool :=
  (fieldStrings r).any (fun v => containsSub v.toLower.data ql.data)

/-- `filter_rows` (src/app.py lines 67-77): empty frame returned as is; a
non-empty, non-"All" manager choice filters on exact equality; a non-empty
query keeps rows where some field's lower-cased text contains the lower-cased
query. -/
def filter_rows (df : List KycRecord) (rm query : String) : List KycRecord :=
  match df with
  | [] => df
  | _ :: _ =>
    let f1 := if rm ≠ "" ∧ rm ≠ "All" then
        df.filter (fun r => r.relationship_manager == some rm)
      else df
    if query ≠ "" then f1.filter (fun r => rowMatches query.toLower r) else f1

/-- The record-keeping predicate `filter_rows` actually implements: the
manager axis is off when the choice is "All" or the empty string. -/
def keepRow (rm query : String) (r : KycRecord) : Bool :=
  (decide (rm = "") || decide (rm = "All") || r.relationship_manager == some rm) &&
    (decide (query = "") || rowMatches query.toLower r)

/-- The record-keeping predicate in the words of the claim: the manager axis
is off exactly when the choice is the sentinel "All". -/
def claimKeepRow (rm query : String) (r : KycRecord) : Bool :=
  (decide (rm = "All") || r.relationship_manager == some rm) &&
    (decide (query = "") || rowMatches query.toLower r)

theorem filter_rows_eq_filter (df : List KycRecord) (rm query : String) :
    filter_rows df rm query = df.filter (keepRow rm query) := by
  cases df with
  | nil => rfl
  | cons a t =>
    show (let f1 := if rm ≠ "" ∧ rm ≠ "All" then
            (a :: t).filter (fun r => r.relationship_manager == some rm)
          else a :: t
          if query ≠ "" then f1.filter (fun r => rowMatches query.toLower r) else f1) =
        (a :: t).filter (keepRow rm query)
    by_cases h1 : rm = ""
    · by_cases h2 : query = "" <;>
        simp [h1, h2, keepRow, List.filter_true] <;>
        (first
          | (symm; rw [List.filter_eq_self]; intro x _; simp [keepRow, h1, h2])
          | (apply List.filter_congr; intro x _; simp [keepRow, h1, h2]))
    · by_cases h2 : rm = "All"
      · by_cases h3 : query = "" <;>
          simp [h1, h2, h3, keepRow, List.filter_true] <;>
          (first
            | (symm; rw [List.filter_eq_self]; intro x _; simp [keepRow, h1, h2, h3])
            | (apply List.filter_congr; intro x _; simp [keepRow, h1, h2, h3]))
      · by_cases h3 : query = "" <;>
          simp [h1, h2, h3, keepRow, List.filter_filter, List.filter_true] <;>
          (apply List.filter_congr; intro x _; simp [keepRow, h1, h2, h3, Bool.and_comm])

/-- Per-bucket counts, as `render_kpis` and `chart_buckets` compute them
(src/app.py lines 81, 95): `value_counts()` on the categorical column drops
NaN rows, and the `reindex(BUCKET_ORDER, fill_value := 0)` yields one entry
per bucket, in the fixed order. -/
def bucketCounts (df : List KycRecord) : List (Bucket × Nat) :=
  BUCKET_ORDER.map (fun b => (b, (df.filter (fun r => r.expiry_bucket == some b)).length))

/-- The bucket-major cross product of the two fixed orders, the `MultiIndex`
of `chart_stack`. -/
def bucketRiskCells : List (Bucket × Risk) :=
  BUCKET_ORDER.flatMap (fun b => RISK_ORDER.map (fun ri => (b, ri)))

/-- The bucket-by-risk cross tabulation of `chart_stack` (src/app.py lines
116-122): `groupby(...).size()` drops rows whose bucket or risk is NaN, and
the `reindex` over the full product zero-fills every absent cell. -/
def bucketByRisk (df : List KycRecord) : List ((Bucket × Risk) × Nat) :=
  bucketRiskCells.map (fun c =>
    (c, (df.filter (fun r => r.expiry_bucket == some c.1 && r.risk_rating == some c.2)).length))

/-- Total of the counts in an aggregation result. -/
def sumSnd {α : Type} (l : List (α × Nat)) : Nat := (l.map Prod.snd).sum

theorem sumSnd_bucketCounts (df : List KycRecord) :
    sumSnd (bucketCounts df) =
      (df.filter (fun r => r.expiry_bucket.isSome)).length := by
  induction df with
  | nil => rfl
  | cons a t ih =>
    cases hb : a.expiry_bucket with
    | none =>
      simp only [bucketCounts, sumSnd, BUCKET_ORDER, List.filter_cons, hb,
        List.map_cons, List.map_nil, List.sum_cons, List.sum_nil] at ih ⊢
      simp only [Option.isSome_none, Bool.false_eq_true, if_false]
      simpa [bucketCounts, sumSnd, BUCKET_ORDER] using ih
    | some b =>
      have hstep :
          sumSnd (bucketCounts (a :: t)) = 1 + sumSnd (bucketCounts t) := by
        cases b <;>
          simp [bucketCounts, sumSnd, BUCKET_ORDER, List.filter_cons, hb] <;> omega
      rw [hstep, ih]
      simp [List.filter_cons, hb]
      omega

theorem sumSnd_bucketByRisk (df : List KycRecord) :
    sumSnd (bucketByRisk df) =
      (df.filter (fun r => r.expiry_bucket.isSome && r.risk_rating.isSome)).length := by
  induction df with
  | nil => rfl
  | cons a t ih =>
    cases hb : a.expiry_bucket with
    | none =>
      have hstep : sumSnd (bucketByRisk (a :: t)) = sumSnd (bucketByRisk t) := by
        simp [bucketByRisk, sumSnd, bucketRiskCells, BUCKET_ORDER, RISK_ORDER,
          List.filter_cons, hb]
      rw [hstep, ih]
      simp [List.filter_cons, hb]
    | some b =>
      cases hr : a.risk_rating with
      | none =>
        have hstep : sumSnd (bucketByRisk (a :: t)) = sumSnd (bucketByRisk t) := by
          simp [bucketByRisk, sumSnd, bucketRiskCells, BUCKET_ORDER, RISK_ORDER,
            List.filter_cons, hb, hr]
        rw [hstep, ih]
        simp [List.filter_cons, hb, hr]
      | some ri =>
        have hstep :
            sumSnd (bucketByRisk (a :: t)) = 1 + sumSnd (bucketByRisk t) := by
          cases b <;> cases ri <;>
            simp [bucketByRisk, sumSnd, bucketRiskCells, BUCKET_ORDER, RISK_ORDER,
              List.filter_cons, hb, hr] <;> omega
        rw [hstep, ih]
        simp [List.filter_cons, hb, hr]
        omega

/-- The memo table `@st.cache_data` keeps for `load_data`: one entry per
argument value (the path).  Streamlit hashes the call's arguments only; no
file signature takes part in the key. -/
abbrev LoadCache := List (String × Snapshot)

/-- A cached call to `load_data` under `@st.cache_data` (src/app.py line 50):
a hit on the path returns the stored snapshot without touching the file; a
miss runs `load_data` on the file's current state and stores a successful
result (exceptions are not cached). -/
def load_cached (cache : LoadCache) (fs : String → FileState) (path : String) :
    Except LoaderError Snapshot × LoadCache :=
  match cache.lookup path with
  | some snap => (Except.ok snap, cache)
  | none =>
    match load_data (fs path) with
    | Except.ok snap => (Except.ok snap, (path, snap) :: cache)
    | Except.error e => (Except.error e, cache)

/-- Case-insensitive character comparison (the regex runs with
`re.IGNORECASE`). -/
def eqI (a b : Char) : Bool := a.toLower == b.toLower

/-- Does the input start with the pattern, case-insensitively? -/
def leadsWithI : List Char → List Char → Bool
  | _, [] => true
  | [], _ :: _ => false
  | h :: hs, n :: ns => eqI h n && leadsWithI hs ns

/-- Match a literal (case-insensitively), then continue with `p`. -/
def litThenI : List Char → (List Char → Option (List Char)) → List Char → Option (List Char)
  | [], p, cs => p cs
  | _ :: _, _, [] => none
  | l :: ls, p, c :: cs2 => if eqI c l then litThenI ls p cs2 else none

/-- Match the regex fragment `[^>]*` followed by `p`: try `p` at each
position, consuming only characters other than the tag closer.  For a
deterministic continuation the shortest-gap choice agrees with the
backtracking regex on both match existence and the captured payload. -/
def gapThenI (p : List Char → Option (List Char)) : List Char → Option (List Char)
  | [] => p []
  | c :: cs =>
    match p (c :: cs) with
    | some r => some r
    | none => if c = '>' then none else gapThenI p cs

/-- The regex's quote class: the pattern `["\\']` in the source is the
character class holding a double quote, a backslash and a single quote. -/
def rxQuote (c : Char) : Bool := c == '"' || c == Char.ofNat 39 || c == Char.ofNat 92

def closeTagLit : List Char := "</script>".data

/-- The lazy `(.*?)</script>` tail: the capture runs to the first
case-insensitive closing tag; no closing tag means no match. -/
def upToCloseTag : List Char → Option (List Char)
  | [] => none
  | c :: cs =>
    if leadsWithI (c :: cs) closeTagLit then some []
    else
      match upToCloseTag cs with
      | some pl => some (c :: pl)
      | none => none

/-- One attempted match, at the current position, of the source regex
`<script[^>]*id=["\\']dashboard-data["\\'][^>]*>(.*?)</script>` with
`re.DOTALL | re.IGNORECASE`; returns the captured payload. -/
def markerAt (cs : List Char) : Option (List Char) :=
  litThenI "<script".data
    (gapThenI (litThenI "id=".data (fun cs2 =>
      match cs2 with
      | q1 :: r1 =>
        if rxQuote q1 then
          litThenI "dashboard-data".data (fun cs3 =>
            match cs3 with
            | q2 :: r2 =>
              if rxQuote q2 then
                gapThenI (fun cs4 =>
                  match cs4 with
                  | g :: r3 => if g = '>' then upToCloseTag r3 else none
                  | [] => none) r2
              else none
            | [] => none) r1
        else none
      | [] => none))) cs

/-- `re.search`: the leftmost position with a match wins. -/
def searchPos : List Char → Option (List Char)
  | [] => none
  | c :: cs =>
    match markerAt (c :: cs) with
    | some pl => some pl
    | none => searchPos cs

def searchMarker (html : String) : Option String := (searchPos html.data).map String.mk

/-- Python `str.strip()`. -/
def pyStrip (s : String) : String :=
  String.mk (((s.data.dropWhile Char.isWhitespace).reverse.dropWhile Char.isWhitespace).reverse)

/-- Parsed JSON documents, as `json.loads` produces them (numbers kept as
their literal text; no claim inspects numeric values of the payload). -/
inductive JVal where
  | jnull
  | jbool (b : Bool)
  | jnum (lit : String)
  | jstr (s : String)
  | jarr (xs : List JVal)
  | jobj (fields : List (String × JVal))
deriving Repr

/-- JSON whitespace. -/
def wsJ (c : Char) : Bool := c == ' ' || c == Char.ofNat 9 || c == Char.ofNat 10 || c == Char.ofNat 13

def isHexC (c : Char) : Bool :=
  c.isDigit || ('a' ≤ c ∧ c ≤ 'f' : Bool) || ('A' ≤ c ∧ c ≤ 'F' : Bool)

def hexVal (c : Char) : Nat :=
  if c.isDigit then c.toNat - 48
  else if 'a' ≤ c then c.toNat - 87
  else c.toNat - 55

def escOk (e : Char) : Bool :=
  e == '"' || e == Char.ofNat 92 || e == '/' || e == 'b' || e == 'f' || e == 'n' || e == 'r' || e == 't'

def escChar (e : Char) : Char :=
  if e = 'b' then Char.ofNat 8
  else if e = 'f' then Char.ofNat 12
  else if e = 'n' then Char.ofNat 10
  else if e = 'r' then Char.ofNat 13
  else if e = 't' then Char.ofNat 9
  else e

/-- Body of a JSON string after the opening quote: decoded content plus the
rest after the closing quote.  Unescaped control characters are rejected, as
`json.loads` does in strict mode. -/
def parseStrBody : List Char → Option (List Char × List Char)
  | [] => none
  | c :: rest =>
    if c = '"' then some ([], rest)
    else if c = Char.ofNat 92 then
      match rest with
      | [] => none
      | e :: r2 =>
        if e = 'u' then
          match r2 with
          | a :: b :: c2 :: d :: r3 =>
            if isHexC a && isHexC b && isHexC c2 && isHexC d then
              (parseStrBody r3).map (fun p =>
                (Char.ofNat (((hexVal a * 16 + hexVal b) * 16 + hexVal c2) * 16 + hexVal d) :: p.1, p.2))
            else none
          | _ => none
        else if escOk e then (parseStrBody r2).map (fun p => (escChar e :: p.1, p.2))
        else none
    else if c.toNat < 32 then none
    else (parseStrBody rest).map (fun p => (c :: p.1, p.2))

/-- A JSON number literal at the head of the input (strict JSON grammar, as
Python's scanner applies it). -/
def parseJNum (cs : List Char) : Option (JVal × List Char) :=
  let sgn : List Char × List Char :=
    match cs with
    | c :: rest => if c = '-' then ([c], rest) else ([], cs)
    | [] => ([], [])
  match sgn.2 with
  | [] => none
  | c :: rest =>
    if ¬ isDigitC c then none
    else
      let ipart : List Char × List Char :=
        if c = '0' then ([c], rest)
        else (c :: rest.takeWhile isDigitC, rest.dropWhile isDigitC)
      let fpart : List Char × List Char :=
        match ipart.2 with
        | p :: r2 =>
          if p = '.' ∧ ¬ (r2.takeWhile isDigitC).isEmpty then
            (p :: r2.takeWhile isDigitC, r2.dropWhile isDigitC)
          else ([], ipart.2)
        | [] => ([], [])
      let epart : Option (List Char × List Char) :=
        match fpart.2 with
        | p :: r2 =>
          if p = 'e' ∨ p = 'E' then
            let es : List Char × List Char :=
              match r2 with
              | q :: r3 => if q = '-' ∨ q = '+' then ([p, q], r3) else ([p], r2)
              | [] => ([p], [])
            if (es.2.takeWhile isDigitC).isEmpty then none
            else some (es.1 ++ es.2.takeWhile isDigitC, es.2.dropWhile isDigitC)
          else some ([], fpart.2)
        | [] => some ([], [])
      match epart with
      | none => none
      | some (ec, rest2) =>
        some (JVal.jnum (String.mk (sgn.1 ++ ipart.1 ++ fpart.1 ++ ec)), rest2)

mutual

/-- One JSON value at the head of the input (fuel-bounded recursive descent;
`json.loads` also accepts the extended literals NaN and Infinity). -/
def parseVal (fuel : Nat) (cs : List Char) : Option (JVal × List Char) :=
  match fuel with
  | 0 => none
  | f + 1 =>
    match cs.dropWhile wsJ with
    | [] => none
    | c :: rest =>
      if c = '"' then (parseStrBody rest).map (fun p => (JVal.jstr (String.mk p.1), p.2))
      else if c = Char.ofNat 123 then parseObjBody f rest
      else if c = '[' then parseArrBody f rest
      else if leadsWith (c :: rest) "true".data then some (JVal.jbool true, (c :: rest).drop 4)
      else if leadsWith (c :: rest) "false".data then some (JVal.jbool false, (c :: rest).drop 5)
      else if leadsWith (c :: rest) "null".data then some (JVal.jnull, (c :: rest).drop 4)
      else if leadsWith (c :: rest) "NaN".data then some (JVal.jnum "NaN", (c :: rest).drop 3)
      else if leadsWith (c :: rest) "Infinity".data then some (JVal.jnum "Infinity", (c :: rest).drop 8)
      else if leadsWith (c :: rest) "-Infinity".data then some (JVal.jnum "-Infinity", (c :: rest).drop 9)
      else parseJNum (c :: rest)

/-- Array body after the opening bracket. -/
def parseArrBody (fuel : Nat) (cs : List Char) : Option (JVal × List Char) :=
  match fuel with
  | 0 => none
  | f + 1 =>
    match cs.dropWhile wsJ with
    | ']' :: rest => some (JVal.jarr [], rest)
    | _ =>
      match parseArrItems f cs with
      | some (xs, rest) => some (JVal.jarr xs, rest)
      | none => none

/-- Comma-separated array items up to the closing bracket. -/
def parseArrItems (fuel : Nat) (cs : List Char) : Option (List JVal × List Char) :=
  match fuel with
  | 0 => none
  | f + 1 =>
    match parseVal f cs with
    | none => none
    | some (v, rest) =>
      match rest.dropWhile wsJ with
      | ',' :: r2 => (parseArrItems f r2).map (fun p => (v :: p.1, p.2))
      | ']' :: r2 => some ([v], r2)
      | _ => none

/-- Object body after the opening brace. -/
def parseObjBody (fuel : Nat) (cs : List Char) : Option (JVal × List Char) :=
  match fuel with
  | 0 => none
  | f + 1 =>
    match cs.dropWhile wsJ with
    | c :: rest =>
      if c = Char.ofNat 125 then some (JVal.jobj [], rest)
      else
        match parseObjItems f (c :: rest) with
        | some (fsv, rest2) => some (JVal.jobj fsv, rest2)
        | none => none
    | [] => none

/-- Comma-separated key-value pairs up to the closing brace. -/
def parseObjItems (fuel : Nat) (cs : List Char) : Option (List (String × JVal) × List Char) :=
  match fuel with
  | 0 => none
  | f + 1 =>
    match cs.dropWhile wsJ with
    | c :: rest =>
      if c = '"' then
        match parseStrBody rest with
        | none => none
        | some (key, r2) =>
          match r2.dropWhile wsJ with
          | ':' :: r3 =>
            match parseVal f r3 with
            | none => none
            | some (v, r4) =>
              match r4.dropWhile wsJ with
              | ',' :: r5 => (parseObjItems f r5).map (fun p => ((String.mk key, v) :: p.1, p.2))
              | c2 :: r5 => if c2 = Char.ofNat 125 then some ([(String.mk key, v)], r5) else none
              | [] => none
          | _ => none
      else none
    | [] => none

end

/-- `json.loads`: one document, nothing but whitespace after it. -/
def json_loads (s : String) : Option JVal :=
  match parseVal (8 * (s.length + 2)) s.data with
  | some (v, rest) => if (rest.dropWhile wsJ).isEmpty then some v else none
  | none => none

mutual

/-- Serialization of the parsed payload for the output file (`json.dumps`;
the `indent := 2` layout is not replicated — no claim reads the written
text). -/
def dumps : JVal → String
  | JVal.jnull => "null"
  | JVal.jbool true => "true"
  | JVal.jbool false => "false"
  | JVal.jnum s => s
  | JVal.jstr s => "\"" ++ s ++ "\""
  | JVal.jarr xs => "[" ++ dumpList xs ++ "]"
  | JVal.jobj fsv => "\x7b" ++ dumpFields fsv ++ "\x7d"

def dumpList : List JVal → String
  | [] => ""
  | [x] => dumps x
  | x :: y :: xs => dumps x ++ ", " ++ dumpList (y :: xs)

def dumpFields : List (String × JVal) → String
  | [] => ""
  | [(k, v)] => "\"" ++ k ++ "\": " ++ dumps v
  | (k, v) :: q :: ps => "\"" ++ k ++ "\": " ++ dumps v ++ ", " ++ dumpFields (q :: ps)

end

inductive ExtractionError where
  | NotFound
  | InvalidPayload
deriving DecidableEq, Repr

/-- `extract_data` (src/scripts/extract_from_html.py): read the host
document, search for the marker block (no match raises the not-found error),
strip and JSON-parse the captured payload (a parse failure raises), and only
then overwrite the target file.  The target file's content is passed and
returned explicitly. -/
def extract_data (html : String) (target : Option String) :
    Except ExtractionError JVal × Option String :=
  match searchMarker html with
  | none => (Except.error ExtractionError.NotFound, target)
  | some payload =>
    match json_loads (pyStrip payload) with
    | none => (Except.error ExtractionError.InvalidPayload, target)
    | some v => (Except.ok v, some (dumps v))

def isErr {ε α : Type} : Except ε α → Bool
  | Except.error _ => true
  | Except.ok _ => false

/-- Match a literal (case-insensitively), then continue with `p` (Boolean
variant, for the spec-side recognizer). -/
def litThenB : List Char → (List Char → Bool) → List Char → Bool
  | [], p, cs => p cs
  | _ :: _, _, [] => false
  | l :: ls, p, c :: cs2 => eqI c l && litThenB ls p cs2

/-- Try `p` at each position inside a tag, consuming only characters other
than the tag closer (Boolean variant). -/
def gapThenB (p : List Char → Bool) : List Char → Bool
  | [] => p []
  | c :: cs => p (c :: cs) || (!(c == '>') && gapThenB p cs)

/-- Does a case-insensitive closing script tag occur anywhere ahead? -/
def hasCloseTag : List Char → Bool
  | [] => false
  | c :: cs => leadsWithI (c :: cs) closeTagLit || hasCloseTag cs

def specQuote (c : Char) : Bool := c == '"' || c == Char.ofNat 39

/-- Rest of the tag after the marker attribute's value: any attribute text up
to the tag closer, then a closing script tag somewhere after. -/
def specTagClose : List Char → Bool :=
  gapThenB (fun cs =>
    match cs with
    | g :: r => g == '>' && hasCloseTag r
    | [] => false)

/-- Modelled from the spec: the tail of the identifying attribute — optional
whitespace, the equals sign, optional whitespace, then the quoted marker
value `dashboard-data` (spec 4.1: location "must not depend on exact
whitespace/attribute-ordering inside the tag").  The marker-location step of
the spec has no implementation of its own in the repository; this recognizer
follows the spec's words and is compared against the code's regex model. -/
def specAttrTail (cs : List Char) : Bool :=
  match cs.dropWhile Char.isWhitespace with
  | e :: r1 =>
    e == '=' &&
      (match r1.dropWhile Char.isWhitespace with
       | q :: r2 =>
         specQuote q &&
           litThenB "dashboard-data".data (fun cs3 =>
             match cs3 with
             | q2 :: r3 => q2 == q && specTagClose r3
             | [] => false) r2
       | [] => false)
  | [] => false

/-- An occurrence of the identifying attribute: whitespace-separated from
what precedes it, the attribute name `id` (case-insensitive), then its
value. -/
def specIdAt (cs : List Char) : Bool :=
  match cs with
  | c :: rest => c.isWhitespace && litThenB "id".data specAttrTail (rest.dropWhile Char.isWhitespace)
  | [] => false

/-- Modelled from the spec: a marker block starting at this position — a
script tag (case-insensitive) one of whose attributes is the identifying
attribute with the marker value, regardless of the other attributes. -/
def specMarkerAt : List Char → Bool := litThenB "<script".data (gapThenB specIdAt)

def anyPos (p : List Char → Bool) : List Char → Bool
  | [] => p []
  | c :: cs => p (c :: cs) || anyPos p cs

/-- Modelled from the spec: the host document contains a marker block. -/
def specHasMarkerBlock (html : String) : Bool := anyPos specMarkerAt html.data

/-- Claim C7 as stated: extraction fails with the not-found error exactly
when the host document has no marker block in the spec's
whitespace-insensitive sense. -/
def C7Claim : Prop :=
  ∀ html : String,
    (extract_data html none).1 = Except.error ExtractionError.NotFound ↔
      specHasMarkerBlock html = false

instance {ε α : Type} [DecidableEq ε] [DecidableEq α] : DecidableEq (Except ε α) := fun a b =>
  match a, b with
  | Except.ok x, Except.ok y =>
    match decEq x y with
    | isTrue h => isTrue (by rw [h])
    | isFalse h => isFalse (fun he => h (by injection he))
  | Except.error x, Except.error y =>
    match decEq x y with
    | isTrue h => isTrue (by rw [h])
    | isFalse h => isFalse (fun he => h (by injection he))
  | Except.ok _, Except.error _ => isFalse (fun he => Except.noConfusion he)
  | Except.error _, Except.ok _ => isFalse (fun he => Except.noConfusion he)

/-- Sample raw record whose upstream bucket label is not one of the five
fixed buckets. -/
def rawBogusBucket : RawRecord :=
  { customer_id := "C1", customer_name := "Ann", risk_rating := some "High",
    kyc_document_type := "passport", doc_expiry_date := none,
    days_to_expiry := RawDays.dnull, expiry_bucket := some "bogus",
    relationship_manager := some "RM1" }

/-- Sample raw record whose risk label is not one of the four fixed risks. -/
def rawSevereRisk : RawRecord :=
  { customer_id := "C2", customer_name := "Ben", risk_rating := some "Severe",
    kyc_document_type := "passport", doc_expiry_date := none,
    days_to_expiry := RawDays.dnull, expiry_bucket := some "Expired",
    relationship_manager := some "RM1" }

/-- Sample raw record with a null risk rating. -/
def rawNullRisk : RawRecord :=
  { customer_id := "C3", customer_name := "Cara", risk_rating := none,
    kyc_document_type := "national ID", doc_expiry_date := none,
    days_to_expiry := RawDays.dnull, expiry_bucket := some "0-30 days",
    relationship_manager := some "RM2" }

/-- Sample raw record whose days field is the non-numeric text "N/A". -/
def rawNaDays : RawRecord :=
  { customer_id := "C4", customer_name := "Dee", risk_rating := some "Low",
    kyc_document_type := "id card", doc_expiry_date := some "2025-03-04",
    days_to_expiry := RawDays.dstr "N/A", expiry_bucket := some "0-30 days",
    relationship_manager := some "RM2" }

/-- Sample normalized record managed by "Bob". -/
def recBob : KycRecord :=
  { customer_id := "C9", customer_name := "Bob", risk_rating := some Risk.High,
    kyc_document_type := "passport", doc_expiry_date := none,
    days_to_expiry := none, expiry_bucket := some Bucket.expired,
    relationship_manager := some "Bob" }


/-- C1, as stated, is false: the bucket counts drop records whose expiry
bucket is NaN after categorical coercion (here an upstream label outside the
five buckets), so the total can undercount the input. -/
theorem C1_counterexample :
    sumSnd (bucketCounts [normalizeRecord rawBogusBucket]) ≠
      [normalizeRecord rawBogusBucket].length := by decide

/-- C1 (amended): the bucket-counts aggregation always yields exactly the
five fixed buckets in the fixed order, zero-filled, and the counts total the
number of records whose expiry bucket is one of the five fixed buckets
(records with a missing or unrecognized bucket are counted by no bucket). -/
theorem C1_amended (df : List KycRecord) :
    (bucketCounts df).map Prod.fst = BUCKET_ORDER ∧
      sumSnd (bucketCounts df) =
        (df.filter (fun r => r.expiry_bucket.isSome)).length := by
  exact ⟨rfl, sumSnd_bucketCounts df⟩

/-- C2, as stated, is false: the cross tabulation drops records whose risk
rating is NaN after categorical coercion (here an upstream label outside the
four risks), so the cell total can undercount the input. -/
theorem C2_counterexample :
    sumSnd (bucketByRisk [normalizeRecord rawSevereRisk]) ≠
      [normalizeRecord rawSevereRisk].length := by decide

/-- C2 (amended): the cross tabulation always materializes exactly the
5 × 4 = 20 cells of the full cross product, in bucket-major fixed order and
zero-filled, and the cells total the number of records that carry both a
recognized bucket and a recognized risk. -/
theorem C2_amended (df : List KycRecord) :
    (bucketByRisk df).length = 20 ∧
      (bucketByRisk df).map Prod.fst = bucketRiskCells ∧
      sumSnd (bucketByRisk df) =
        (df.filter (fun r => r.expiry_bucket.isSome && r.risk_rating.isSome)).length := by
  exact ⟨rfl, rfl, sumSnd_bucketByRisk df⟩

/-- C3, as stated, is false: a risk label outside the four categories is not
normalized to Unknown — the categorical coercion turns it into the missing
sentinel (NaN), which is none of the four enumerated values. -/
theorem C3_counterexample :
    (normalizeRecord rawSevereRisk).risk_rating ≠ some Risk.Unknown ∧
      (normalizeRecord rawSevereRisk).risk_rating = none := by decide

/-- C3 (amended): a null or missing risk becomes Unknown, a label matching
one of the four categories passes through, and any other label becomes the
missing sentinel (not Unknown), so the normalized risk is always one of the
four values or missing. -/
theorem C3_amended (r : RawRecord) :
    ((r.risk_rating = none ∨ r.risk_rating = some "Unknown") →
        (normalizeRecord r).risk_rating = some Risk.Unknown) ∧
      (r.risk_rating = some "High" → (normalizeRecord r).risk_rating = some Risk.High) ∧
      (r.risk_rating = some "Medium" → (normalizeRecord r).risk_rating = some Risk.Medium) ∧
      (r.risk_rating = some "Low" → (normalizeRecord r).risk_rating = some Risk.Low) ∧
      (∀ s : String, r.risk_rating = some s → s ≠ "High" → s ≠ "Medium" → s ≠ "Low" →
        s ≠ "Unknown" → (normalizeRecord r).risk_rating = none) := by
  refine ⟨?_, ?_, ?_, ?_, ?_⟩
  · rintro (h | h) <;> simp [normalizeRecord, toRisk, h]
  · intro h; simp [normalizeRecord, toRisk, h]
  · intro h; simp [normalizeRecord, toRisk, h]
  · intro h; simp [normalizeRecord, toRisk, h]
  · intro s hs h1 h2 h3 h4; simp [normalizeRecord, toRisk, hs, h1, h2, h3, h4]

/-- C3 witness: normalizing a record whose risk is null yields Unknown. -/
theorem C3_witness :
    rawNullRisk.risk_rating = none ∧
      (normalizeRecord rawNullRisk).risk_rating = some Risk.Unknown :=
  ⟨rfl, (C3_amended rawNullRisk).1 (Or.inl rfl)⟩

/-- C4: loading distinguishes exactly the three contracted outcomes — a
missing path gives an empty snapshot with no error, existing content that is
not valid JSON fails with the malformed-snapshot error, and a valid document
without the records collection gives an empty snapshot with no error. -/
theorem C4_loader_outcomes :
    load_data FileState.missing = Except.ok { raw := none, records := [] } ∧
      load_data FileState.invalid = Except.error LoaderError.MalformedSnapshot ∧
      ∀ (g i : Option String) (tl : Option (List String)),
        load_data (FileState.valid
            { generated_at := g, input_file := i, tabs := tl, records := none }) =
          Except.ok { raw := some { generated_at := g, input_file := i, tabs := tl, records := none },
                      records := [] } :=
  ⟨rfl, rfl, fun _ _ _ => rfl⟩

/-- Claim C5 as stated: a record is kept exactly when (manager filter is the
sentinel "All" or an exact manager match) and (empty query or some field
contains the query). -/
def C5Claim : Prop :=
  ∀ (df : List KycRecord) (rm q : String),
    filter_rows df rm q = df.filter (claimKeepRow rm q)

/-- C5, as stated, is false: an empty manager-filter string also disables the
manager axis (the code tests the string's truthiness before comparing), so
with the empty filter a record is kept that the claimed predicate drops. -/
theorem C5_counterexample : ¬ C5Claim := by
  intro h
  have h0 := h [recBob] "" ""
  rw [show filter_rows [recBob] "" "" = [recBob] from rfl] at h0
  rw [show List.filter (claimKeepRow "" "") [recBob] = [] from by decide] at h0
  exact List.noConfusion h0

/-- C5 (amended): a record is kept by the filter iff (the manager filter is
the sentinel "All" or the empty string, or the record's relationship manager
equals the filter exactly) and (the search text is empty or some field's
lower-cased textual form contains the lower-cased search text as a
substring, over every field of the record). -/
theorem C5_amended (df : List KycRecord) (rm q : String) :
    filter_rows df rm q = df.filter (keepRow rm q) :=
  filter_rows_eq_filter df rm q

/-- C6: filtering is idempotent and stable — applying the same filter twice
changes nothing, and the output is a sublist (order-preserving subset) of
the input. -/
theorem C6_filter_idempotent_stable (df : List KycRecord) (rm q : String) :
    filter_rows (filter_rows df rm q) rm q = filter_rows df rm q ∧
      List.Sublist (filter_rows df rm q) df := by
  constructor
  · rw [filter_rows_eq_filter, filter_rows_eq_filter, List.filter_filter]
    simp [Bool.and_self]
  · rw [filter_rows_eq_filter]
    exact List.filter_sublist df

/-- C7, as stated, is false: the marker search does depend on exact
whitespace inside the tag — a marker attribute written `id = "..."` (spaces
around the equals sign) is a marker block in the spec's sense, yet the
regex finds no match and extraction fails with the not-found error. -/
theorem C7_counterexample : ¬ C7Claim := by
  intro h
  have h0 := h "<script id = \"dashboard-data\">1</script>"
  have hnf : (extract_data "<script id = \"dashboard-data\">1</script>" none).1 =
      Except.error ExtractionError.NotFound := rfl
  have hs : specHasMarkerBlock "<script id = \"dashboard-data\">1</script>" = true := by decide
  have hfalse := h0.mp hnf
  rw [hs] at hfalse
  exact Bool.noConfusion hfalse

/-- C7 (amended): extraction fails with the not-found error exactly when the
regex marker search finds no match; that search is case-insensitive and
tolerates extra attributes and whitespace (including newlines) between
attributes, but the identifying attribute must be written `id=` directly
against a quote — whitespace around the equals sign defeats recognition. -/
theorem C7_amended :
    (∀ (html : String) (target : Option String),
        (extract_data html target).1 = Except.error ExtractionError.NotFound ↔
          searchMarker html = none) ∧
      (searchMarker "<SCRIPT type=\"x\" ID=\"dashboard-data\" defer>1</ScRiPt>").isSome = true ∧
      (searchMarker "<script\n id=\"dashboard-data\"\n>1</script>").isSome = true ∧
      searchMarker "<script id = \"dashboard-data\">1</script>" = none := by
  refine ⟨?_, by decide, by decide, by decide⟩
  intro html target
  unfold extract_data
  cases hm : searchMarker html with
  | none => simp
  | some payload =>
    cases hj : json_loads (pyStrip payload) with
    | none => simp [hj]
    | some v => simp [hj]

/-- C7 witness: on a document with no marker block at all, extraction fails
with the not-found error. -/
theorem C7_witness :
    (extract_data "<p>x</p>" none).1 = Except.error ExtractionError.NotFound :=
  (C7_amended.1 "<p>x</p>" none).mpr rfl

/-- Snapshot metadata used by the cache claims. -/
def rawMetaA : RawSnapshot :=
  { generated_at := some "2025-01-01", input_file := none, tabs := none, records := some [] }

def rawMetaB : RawSnapshot :=
  { generated_at := some "2025-02-02", input_file := none, tabs := none, records := some [] }

def fsA : String → FileState := fun _ => FileState.valid rawMetaA

def fsB : String → FileState := fun _ => FileState.valid rawMetaB

/-- C8, as stated, is false: the cache is keyed on the path argument alone,
so after the file's content changes the next load still returns the stale
cached snapshot instead of reflecting the new content. -/
theorem C8_counterexample :
    (load_cached (load_cached [] fsA "data.json").2 fsB "data.json").1 =
        (load_cached [] fsA "data.json").1 ∧
      (load_cached (load_cached [] fsA "data.json").2 fsB "data.json").1 ≠
        load_data (fsB "data.json") := by decide

/-- C8 (amended): repeated cached loads of the same path return the snapshot
computed at the first load without re-running the loader, whatever the
file's current state; this equals an uncached reload as long as the file is
unchanged, but a content change does not invalidate the cache. -/
theorem C8_amended (fs fs2 : String → FileState) (path : String) (snap : Snapshot)
    (c1 : LoadCache) (h : load_cached [] fs path = (Except.ok snap, c1)) :
    load_cached c1 fs2 path = (Except.ok snap, c1) ∧
      (fs2 path = fs path → load_data (fs2 path) = Except.ok snap) := by
  unfold load_cached at h
  simp only [List.lookup_nil] at h
  cases hl : load_data (fs path) with
  | ok s =>
    rw [hl] at h
    rw [Prod.ext_iff] at h
    obtain ⟨h1, h2⟩ := h
    injection h1 with hs
    subst hs
    subst h2
    constructor
    · unfold load_cached
      simp [List.lookup]
    · intro he
      rw [he]
      exact hl
  | error e =>
    rw [hl] at h
    rw [Prod.ext_iff] at h
    exact absurd h.1 (by simp)

def snapEmpty : Snapshot := { raw := none, records := [] }

/-- C8 witness: a second cached load of the same unchanged path returns the
first load's snapshot. -/
theorem C8_witness :
    load_cached [] (fun _ => FileState.missing) "p" =
        (Except.ok snapEmpty, [("p", snapEmpty)]) ∧
      load_cached [("p", snapEmpty)] (fun _ => FileState.missing) "p" =
        (Except.ok snapEmpty, [("p", snapEmpty)]) :=
  ⟨rfl,
    (C8_amended (fun _ => FileState.missing) (fun _ => FileState.missing) "p" snapEmpty
      [("p", snapEmpty)] rfl).1⟩

/-- C9: a days value whose numeric parse fails is normalized to the missing
sentinel, never to zero, and the record is retained with its pass-through
fields intact — the load maps every raw record to a normalized one, dropping
none and never failing on a bad field. -/
theorem C9_days_sentinel (r : RawRecord) (s : String) (g i : Option String)
    (tl : Option (List String)) (rs : List RawRecord)
    (hday : r.days_to_expiry = RawDays.dstr s) (hparse : parseNumStr s = none) :
    (normalizeRecord r).days_to_expiry = none ∧
      (normalizeRecord r).days_to_expiry ≠ some (0 : Rat) ∧
      (normalizeRecord r).customer_id = r.customer_id ∧
      (normalizeRecord r).customer_name = r.customer_name ∧
      (normalizeRecord r).kyc_document_type = r.kyc_document_type ∧
      (normalizeRecord r).relationship_manager = r.relationship_manager ∧
      load_data (FileState.valid
          { generated_at := g, input_file := i, tabs := tl, records := some (r :: rs) }) =
        Except.ok { raw := some { generated_at := g, input_file := i, tabs := tl,
                                  records := some (r :: rs) },
                    records := (r :: rs).map normalizeRecord } ∧
      ((r :: rs).map normalizeRecord).length = (r :: rs).length := by
  have hd : (normalizeRecord r).days_to_expiry = none := by
    simp [normalizeRecord, to_numeric, hday, hparse]
  exact ⟨hd, by simp [hd], rfl, rfl, rfl, rfl, rfl, by simp⟩

/-- C9 witness: the literal record with days "N/A" is normalized to the
missing-days sentinel. -/
theorem C9_witness :
    rawNaDays.days_to_expiry = RawDays.dstr "N/A" ∧ parseNumStr "N/A" = none ∧
      (normalizeRecord rawNaDays).days_to_expiry = none :=
  ⟨rfl, by decide,
    (C9_days_sentinel rawNaDays "N/A" none none none [] rfl (by decide)).1⟩

/-- C10: extraction is atomic on failure — whenever it returns an error (no
marker block, or a payload that is not valid JSON, both raised before the
write), the target file's content is unchanged. -/
theorem C10_atomic_on_failure (html : String) (target : Option String)
    (h : isErr (extract_data html target).1 = true) :
    (extract_data html target).2 = target := by
  unfold extract_data at h ⊢
  cases hm : searchMarker html with
  | none => simp
  | some payload =>
    simp only [hm] at h
    cases hj : json_loads (pyStrip payload) with
    | none => simp [hj]
    | some v =>
      simp only [hj] at h
      simp [isErr] at h

/-- C10 witness: a failing extraction (no marker) leaves the absent target
absent. -/
theorem C10_witness :
    isErr (extract_data "x" none).1 = true ∧ (extract_data "x" none).2 = none :=
  ⟨rfl, C10_atomic_on_failure "x" none rfl⟩
